import Mathlib

/-!
Shallow embedding of the polling application's domain logic.

The primary server actions (`createPoll`, `getUserPolls`, `getPollById`,
`submitVote`, `deletePoll`, `updatePoll`) live in one Supabase actions file
(src/unnamed/part_000); the database schema for its `polls` and `votes`
tables is the SQL in the README (src/unnamed/part_009).  A second variant of
`createPoll` (src/unnamed/part_008, the alx-polly project) inserts a poll row
and then its option rows in two separate gateway calls; a third variant
(src/New-poll/src/lib/actions/polls.ts) delegates to a single
`create_poll_with_options` database function.

The Supabase gateway is modelled as an in-memory relational store: a table is
a list of rows, an insert appends, and `delete`/`update` scoped by equality
filters act on the rows matching every filter.  The ambient session
(`supabase.auth.getUser()`) is passed in as an `Option User` argument, and
database-generated ids are passed in explicitly.
-/

/-- JavaScript's `String.prototype.trim()`: drop leading and trailing
whitespace.  Embedded by structural recursion on the character list (rather
than `String.trim`, whose auxiliary functions do not reduce in the kernel). -/
def jsTrim (s : String) : String :=
  ⟨((s.data.dropWhile Char.isWhitespace).reverse.dropWhile
      Char.isWhitespace).reverse⟩

namespace Polls

/-- An authenticated user, as consumed by the actions (`user.id`). -/
structure User where
  id : String
deriving DecidableEq, Repr

/-- A `FormData` entry: `formData.get`/`getAll` return strings or `File`
objects; part_000's `createPoll` branches on `typeof v === 'string'`. -/
inductive FormValue where
  | str (s : String)
  | file
deriving DecidableEq, Repr

/-- JavaScript truthiness of a form entry, as used by `.filter(Boolean)`:
the empty string is falsy, every other string and every `File` is truthy. -/
def FormValue.truthy : FormValue → Bool
  | .str s => s ≠ ""
  | .file => true

/-- Input to part_000's `createPoll`: `formData.get("question")` (`none` when
the field is absent, i.e. `null`) and `formData.getAll("options")`. -/
structure CreatePollForm where
  question : Option FormValue
  options : List FormValue
deriving DecidableEq, Repr

/-- A row of the `polls` table.  `id`, `user_id`, `question`, `options` are
the columns of the SQL schema in src/unnamed/part_009.  `end_date`,
`allow_multiple_votes` and `require_authentication` carry the `endDate` and
`settings` fields of the `Poll` interface in src/app/lib/types/index.ts
(`endDate` as an epoch instant); no function of part_000 ever reads them. -/
structure PollRow where
  id : String
  user_id : String
  question : String
  options : List String
  end_date : Option Nat
  allow_multiple_votes : Bool
  require_authentication : Bool
deriving DecidableEq, Repr

/-- A row of the `votes` table (schema in src/unnamed/part_009):
`user_id` is nullable (anonymous votes), `option_index` identifies the
chosen option by position. -/
structure VoteRow where
  poll_id : String
  user_id : Option String
  option_index : Nat
deriving DecidableEq, Repr

/-- The persistent store backing part_000: the `polls` and `votes` tables. -/
structure Store where
  polls : List PollRow
  votes : List VoteRow
deriving DecidableEq, Repr

/-- The uniform `{ error: string | null }` result of the part_000 actions. -/
structure ActionResult where
  error : Option String
deriving DecidableEq, Repr

/-- The sanitization step of part_000's `createPoll` applied to one entry:
`typeof opt === 'string' ? opt.trim() : ''`. -/
def sanitizeOption : FormValue → String
  | .str s => jsTrim s
  | .file => ""

/-- `options.map(...).filter(Boolean)` over the truthy raw entries, i.e. the
`sanitizedOptions` value computed by part_000's `createPoll`. -/
def sanitizedOptions (options : List FormValue) : List String :=
  ((options.filter FormValue.truthy).map sanitizeOption).filter (fun s => s ≠ "")

/-- part_000 `createPoll` (src/unnamed/part_000, lines 36-87): type-check the
form entries, trim the question, sanitize the options, require a question and
at least two options, require a logged-in user, then insert one `polls` row.
`newId` stands for the database-generated primary key; the unread
`end_date`/`settings` columns of the inserted row take their defaults. -/
def createPoll (form : CreatePollForm) (auth : Option User) (newId : String)
    (st : Store) : ActionResult × Store :=
  match form.question with
  | none => ({ error := some "Invalid form data." }, st)
  | some .file => ({ error := some "Invalid form data." }, st)
  | some (.str q) =>
    let sanitizedQuestion := jsTrim q
    let sanitizedOpts := sanitizedOptions form.options
    if sanitizedQuestion = "" ∨ sanitizedOpts.length < 2 then
      ({ error := some "Please provide a question and at least two options." }, st)
    else
      match auth with
      | none => ({ error := some "You must be logged in to create a poll." }, st)
      | some user =>
        ({ error := none },
         { st with polls := st.polls ++
             [{ id := newId, user_id := user.id, question := sanitizedQuestion,
                options := sanitizedOpts, end_date := none,
                allow_multiple_votes := false, require_authentication := false }] })

/-- part_000 `getPollById`: `select * from polls where id = ?` followed by
`.single()`, which errors unless exactly one row matches. -/
def getPollById (id : String) (st : Store) : Option PollRow × Option String :=
  match st.polls.filter (fun p => p.id == id) with
  | [p] => (some p, none)
  | _ => (none, some "JSON object requested, multiple (or no) rows returned")

/-- part_000 `submitVote` (src/unnamed/part_000, lines 137-156): reads the
session (the login requirement is commented out in the source) and inserts
one `votes` row with `user_id = user?.id ?? null`.  No other check is
performed: the poll is never fetched, so neither its `endDate` nor its
`settings` nor the voter's previous votes are consulted. -/
def submitVote (pollId : String) (optionIndex : Nat) (auth : Option User)
    (st : Store) : ActionResult × Store :=
  ({ error := none },
   { st with votes := st.votes ++
       [{ poll_id := pollId, user_id := auth.map User.id,
          option_index := optionIndex }] })

/-- part_000 `deletePoll` (src/unnamed/part_000, lines 188-216): require a
logged-in user, then issue a single delete scoped by `id = ?` AND
`user_id = user.id`; zero affected rows is not an error. -/
def deletePoll (id : String) (auth : Option User) (st : Store) :
    ActionResult × Store :=
  match auth with
  | none => ({ error := some "You must be logged in to delete a poll." }, st)
  | some user =>
    ({ error := none },
     { st with polls :=
         st.polls.filter (fun p => !(p.id == id && p.user_id == user.id)) })

/-- part_000 `updatePoll` (src/unnamed/part_000, lines 219-253): read
`question` (cast to string, `none` when absent) and the truthy `options`,
require a question and at least two options, require a logged-in user, then
issue a single update scoped by `id = ?` AND `user_id = user.id`; zero
affected rows is not an error. -/
def updatePoll (pollId : String) (question : Option String)
    (options : List String) (auth : Option User) (st : Store) :
    ActionResult × Store :=
  let opts := options.filter (fun s => s ≠ "")
  if question.getD "" = "" ∨ opts.length < 2 then
    ({ error := some "Please provide a question and at least two options." }, st)
  else
    match auth with
    | none => ({ error := some "You must be logged in to update a poll." }, st)
    | some user =>
      ({ error := none },
       { st with polls := st.polls.map (fun p =>
           if p.id == pollId && p.user_id == user.id then
             { p with question := question.getD "", options := opts }
           else p) })

/-- Modelled from the spec: the poll lifecycle state machine is not code in
src/ (no column of the `polls` schema stores it); the spec says "a poll is
CLOSED whenever `endDate` is set and `now >= endDate`", derived on read. -/
def isClosed (now : Nat) (p : PollRow) : Bool :=
  match p.end_date with
  | some e => e ≤ now
  | none => false

/-- Modelled from the spec: `getTally` is not a function of src/; the spec
says tallies group all Vote rows for a poll by option and count them.  This
is the count of `votes` rows for one `(pollId, optionIndex)` pair. -/
def tallyCount (st : Store) (pollId : String) (idx : Nat) : Nat :=
  (st.votes.filter (fun v => v.poll_id == pollId && v.option_index == idx)).length

end Polls

namespace AlxPolly

/-- The `CreatePollFormData` input shared by the alx-polly variant of
`createPoll` (src/unnamed/part_008) and the New-poll variant
(src/New-poll/src/lib/actions/polls.ts). -/
structure CreatePollFormData where
  title : String
  description : Option String
  options : List String
  isPublic : Bool
  allowMultipleVotes : Bool
  allowAnonymousVotes : Bool
deriving DecidableEq, Repr

/-- The `CreatePollResult` shape of both variants. -/
structure CreatePollResult where
  success : Bool
  pollId : Option String
  error : Option String
deriving DecidableEq, Repr

/-- A row of the `polls` table written by the part_008 and New-poll
variants (columns as in their insert payloads). -/
structure PollRow where
  id : String
  title : String
  description : Option String
  creator_id : String
  is_public : Bool
  allow_multiple_votes : Bool
  allow_anonymous_votes : Bool
deriving DecidableEq, Repr

/-- A row of the `poll_options` table written by the part_008 variant. -/
structure OptionRow where
  poll_id : String
  text : String
  order_index : Nat
deriving DecidableEq, Repr

/-- The store backing the part_008 and New-poll variants: the `polls` and
`poll_options` tables. -/
structure NPStore where
  polls : List PollRow
  poll_options : List OptionRow
deriving DecidableEq, Repr

/-- `formData.description?.trim() || null`: absent or whitespace-only
descriptions become `null`. -/
def normDescription : Option String → Option String
  | none => none
  | some d => if jsTrim d = "" then none else some (jsTrim d)

/-- alx-polly `createPoll` (src/unnamed/part_008, lines 22-97): validate the
title, the raw option count (at least 2, at most 10) and the count of options
with non-empty trimmed text; the acting user is the hard-coded
`{ id: 'mock-user-id' }` (the session is never consulted, so the `session`
argument is threaded but unread).  The poll row and the option rows are then
inserted in two separate gateway calls; `pollInsertOk`/`optionsInsertOk` are
the gateway's responses to those two inserts (a failed insert persists
nothing of that call).  When the options insert fails the function returns
the error immediately: the already-inserted poll row is not deleted. -/
def createPoll (form : CreatePollFormData) (session : Option Polls.User)
    (newId : String) (pollInsertOk optionsInsertOk : Bool) (st : NPStore) :
    CreatePollResult × NPStore :=
  if jsTrim form.title = "" then
    ({ success := false, pollId := none, error := some "Title is required" }, st)
  else if form.options.length < 2 then
    ({ success := false, pollId := none,
       error := some "At least 2 options are required" }, st)
  else if form.options.length > 10 then
    ({ success := false, pollId := none,
       error := some "Maximum 10 options allowed" }, st)
  else
    let validOptions := form.options.filter (fun o => jsTrim o ≠ "")
    if validOptions.length < 2 then
      ({ success := false, pollId := none,
         error := some "All options must have text" }, st)
    else
      let mockUser : Polls.User := { id := "mock-user-id" }
      if !pollInsertOk then
        ({ success := false, pollId := none,
           error := some "Failed to create poll" }, st)
      else
        let st1 : NPStore :=
          { st with polls := st.polls ++
              [{ id := newId, title := jsTrim form.title,
                 description := normDescription form.description,
                 creator_id := mockUser.id, is_public := form.isPublic,
                 allow_multiple_votes := form.allowMultipleVotes,
                 allow_anonymous_votes := form.allowAnonymousVotes }] }
        let optionsData := validOptions.mapIdx (fun index text =>
          { poll_id := newId, text := jsTrim text, order_index := index : OptionRow })
        if !optionsInsertOk then
          ({ success := false, pollId := none,
             error := some "Failed to create poll options" }, st1)
        else
          ({ success := true, pollId := some newId, error := none },
           { st1 with poll_options := st1.poll_options ++ optionsData })

end AlxPolly

namespace NewPoll

/-- New-poll `createPoll` (src/New-poll/src/lib/actions/polls.ts): validate
the title and the count of options with non-empty trimmed text; the acting
user is the hard-coded `{ id: 'demo-user' }` ("Skip authentication for demo
purposes" — the `session` argument is threaded but unread); then one call to
the `create_poll_with_options` database function.  Modelled from the spec:
that database function is not in src/; the spec says the poll row and its
options persist "in a single logical transaction", so on success (`rpcOk`)
both are appended atomically and on failure nothing is. -/
def createPoll (form : AlxPolly.CreatePollFormData) (session : Option Polls.User)
    (newId : String) (rpcOk : Bool) (st : AlxPolly.NPStore) :
    AlxPolly.CreatePollResult × AlxPolly.NPStore :=
  if jsTrim form.title = "" then
    ({ success := false, pollId := none, error := some "Title is required" }, st)
  else
    let validOptions := form.options.filter (fun o => jsTrim o ≠ "")
    if validOptions.length < 2 then
      ({ success := false, pollId := none,
         error := some "At least 2 options are required" }, st)
    else
      let user : Polls.User := { id := "demo-user" }
      if !rpcOk then
        ({ success := false, pollId := none,
           error := some "Failed to create poll" }, st)
      else
        ({ success := true, pollId := some newId, error := none },
         { polls := st.polls ++
             [{ id := newId, title := jsTrim form.title,
                description := AlxPolly.normDescription form.description,
                creator_id := user.id, is_public := form.isPublic,
                allow_multiple_votes := form.allowMultipleVotes,
                allow_anonymous_votes := form.allowAnonymousVotes }],
           poll_options := st.poll_options ++
             ((validOptions.map jsTrim).mapIdx (fun index text =>
                 { poll_id := newId, text := text, order_index := index })) })

end NewPoll

namespace Tally

/-- `Math.round` of the non-negative rational `num / den` (`den > 0`):
JavaScript rounds half up, i.e. `floor(num/den + 1/2)`. -/
def jsRound (num den : Nat) : Nat := (2 * num + den) / (2 * den)

/-- The per-option percentage of the results page
(src/unnamed/part_004, line 171): `totalVotes > 0 ?
Math.round((votes / totalVotes) * 100) : 0`. -/
def percentage (votes total : Nat) : Nat :=
  if 0 < total then jsRound (votes * 100) total else 0

/-- Modelled from the spec: `getTally` is not a function of src/ (the
results page displays a precomputed results map); the spec says the count of
an option is the number of Vote rows for it. -/
def countVotes (votes : List String) (option : String) : Nat :=
  (votes.filter (fun v => v == option)).length

/-- The per-option results map derived from the vote list: one entry per
poll option, in poll order, counting the votes for that option. -/
def voteCounts (pollOptions : List String) (votes : List String) :
    List (String × Nat) :=
  pollOptions.map (fun o => (o, countVotes votes o))

/-- `totalVotes` of the results page (src/unnamed/part_004, line 151):
the sum of the values of the results map. -/
def totalOf (results : List (String × Nat)) : Nat :=
  (results.map Prod.snd).sum

/-- The lookup `results[option] || 0` of the results page (line 170):
options absent from the results map count 0. -/
def resultsLookup (results : List (String × Nat)) (option : String) : Nat :=
  ((results.find? (fun r => r.1 == option)).map Prod.snd).getD 0

/-- The enumeration of the results page (src/unnamed/part_004, lines
169-171): map over `poll.options` (not over the observed votes), pairing
each option with its count and its percentage of the total. -/
def resultsFor (pollOptions : List String) (results : List (String × Nat)) :
    List (String × Nat × Nat) :=
  pollOptions.map (fun option =>
    let votes := resultsLookup results option
    (option, votes, percentage votes (totalOf results)))

/-- `getTally` over a vote list: group the votes by option
(spec-modelled, see `countVotes`), then enumerate and percentage them the
way the results page does. -/
def getTally (pollOptions : List String) (votes : List String) :
    List (String × Nat × Nat) :=
  resultsFor pollOptions (voteCounts pollOptions votes)

end Tally

/-! ## Shared helper lemmas -/

theorem list_map_eq_self_of_mem {α : Type} (l : List α) (f : α → α)
    (h : ∀ a ∈ l, f a = a) : l.map f = l := by
  induction l with
  | nil => rfl
  | cons a t ih =>
    simp only [List.map_cons]
    rw [h a (List.mem_cons_self a t), ih (fun b hb => h b (List.mem_cons_of_mem a hb))]

theorem polls_row_unique {st : Polls.Store} {P : Polls.PollRow}
    (hRows : st.polls.filter (fun q => q.id == P.id) = [P]) :
    ∀ p ∈ st.polls, p.id = P.id → p = P := by
  intro p hp hid
  have hmem : p ∈ st.polls.filter (fun q => q.id == P.id) := by
    rw [List.mem_filter]
    exact ⟨hp, by simp [hid]⟩
  rw [hRows] at hmem
  simpa using hmem

/-! ## Claim theorems -/

section Claims
open Polls

/-- C1: for a poll P owned by user A and an acting user B ≠ A (or a
nonexistent poll id), part_000's `deletePoll` returns success (`error null`)
with zero effect: the single gateway delete is scoped by both the poll id and
the owning `user_id`, so it matches no row, the store is unchanged, and
`getPollById P.id` still returns P afterwards. -/
theorem deletePoll_foreign_or_missing_silent_noop (st : Store) (P : PollRow)
    (B : User) (hOwn : P.user_id ≠ B.id)
    (hRows : st.polls.filter (fun q => q.id == P.id) = [P]) :
    (deletePoll P.id (some B) st).1.error = none ∧
    (deletePoll P.id (some B) st).2 = st ∧
    (getPollById P.id (deletePoll P.id (some B) st).2).1 = some P ∧
    ∀ nid : String, (∀ q ∈ st.polls, q.id ≠ nid) →
      deletePoll nid (some B) st = ({ error := none }, st) := by
  have huniq := polls_row_unique hRows
  have hkeep : st.polls.filter
      (fun p => !(p.id == P.id && p.user_id == B.id)) = st.polls := by
    apply List.filter_eq_self.mpr
    intro p hp
    by_cases hid : p.id = P.id
    · have hpP := huniq p hp hid
      subst hpP
      simp [hOwn]
    · simp [hid]
  have hsnd : (deletePoll P.id (some B) st).2 = st := by
    simp only [deletePoll]
    rw [hkeep]
  refine ⟨rfl, hsnd, ?_, ?_⟩
  · rw [hsnd]
    unfold getPollById
    rw [hRows]
  · intro nid hnone
    have hkeep2 : st.polls.filter
        (fun p => !(p.id == nid && p.user_id == B.id)) = st.polls := by
      apply List.filter_eq_self.mpr
      intro p hp
      simp [hnone p hp]
    simp only [deletePoll]
    rw [hkeep2]

/-- Concrete witness for C1: `pollW` is owned by `alice`; acting user `bob`
deletes it (and a nonexistent id) with silent success and no effect. -/
def pollW : PollRow :=
  { id := "p1", user_id := "alice", question := "Q?", options := ["A", "B"],
    end_date := none, allow_multiple_votes := false,
    require_authentication := false }

/-- The store holding only `pollW`. -/
def storeW : Store := { polls := [pollW], votes := [] }

theorem deletePoll_foreign_or_missing_silent_noop_witness :
    pollW.user_id ≠ ({ id := "bob" } : User).id ∧
    storeW.polls.filter (fun q => q.id == pollW.id) = [pollW] ∧
    ((deletePoll pollW.id (some { id := "bob" }) storeW).1.error = none ∧
     (deletePoll pollW.id (some { id := "bob" }) storeW).2 = storeW ∧
     (getPollById pollW.id
        (deletePoll pollW.id (some { id := "bob" }) storeW).2).1 = some pollW ∧
     deletePoll "missing" (some { id := "bob" }) storeW =
       ({ error := none }, storeW)) := by
  have h := deletePoll_foreign_or_missing_silent_noop storeW pollW
    { id := "bob" } (by decide) (by decide)
  exact ⟨by decide, by decide,
    h.1, h.2.1, h.2.2.1, h.2.2.2 "missing" (by decide)⟩

/-- Another store holding only `pollW` (owned by `alice`), used for the
update-ownership claim. -/
def storeU : Store := { polls := [pollW], votes := [] }

/-- C2 counterexample: `updatePoll(P.id, {title: "x"}, bob)` on alice's poll
does NOT return `Forbidden` — it returns success (`error = null`) with zero
effect, because the update is scoped by `id` AND `user_id` and matches no
row.  The claim's "returns Forbidden" is false at this input. -/
theorem updatePoll_nonowner_counterexample :
    (updatePoll pollW.id (some "x") ["x1", "x2"]
        (some { id := "bob" }) storeU).1.error = none ∧
    (updatePoll pollW.id (some "x") ["x1", "x2"]
        (some { id := "bob" }) storeU).2 = storeU := by decide

/-- C2 amended: for every stored poll P whose `user_id` differs from the
authenticated acting user's id, `updatePoll` with a valid form leaves P
unchanged (P's question keeps its prior value) but returns silent success
(`error = null`, zero rows affected), not `Forbidden`: ownership is enforced
solely by scoping the update by `id` AND `user_id` in the same request. -/
theorem updatePoll_nonowner_silent_noop (st : Store) (P : PollRow) (B : User)
    (q : String) (options : List String) (hOwn : P.user_id ≠ B.id)
    (hRows : st.polls.filter (fun r => r.id == P.id) = [P]) (hq : q ≠ "")
    (hopts : 2 ≤ (options.filter (fun s => s ≠ "")).length) :
    (updatePoll P.id (some q) options (some B) st).1.error = none ∧
    (updatePoll P.id (some q) options (some B) st).2 = st := by
  have huniq := polls_row_unique hRows
  have hcond : ¬((some q).getD "" = "" ∨
      (options.filter (fun s => s ≠ "")).length < 2) := by
    push_neg
    exact ⟨by simpa using hq, hopts⟩
  have hid : st.polls.map (fun p =>
      if p.id == P.id && p.user_id == B.id then
        { p with question := (some q).getD "",
                 options := options.filter (fun s => s ≠ "") }
      else p) = st.polls := by
    apply list_map_eq_self_of_mem
    intro p hp
    by_cases hpid : p.id = P.id
    · have hpP := huniq p hp hpid
      subst hpP
      simp [hOwn]
    · simp [hpid]
  constructor
  · simp only [updatePoll, if_neg hcond]
  · simp only [updatePoll, if_neg hcond]
    rw [hid]

theorem updatePoll_nonowner_silent_noop_witness :
    pollW.user_id ≠ ({ id := "bob" } : User).id ∧
    storeU.polls.filter (fun r => r.id == pollW.id) = [pollW] ∧
    ("x" : String) ≠ "" ∧
    2 ≤ ((["x1", "x2"] : List String).filter (fun s => s ≠ "")).length ∧
    ((updatePoll pollW.id (some "x") ["x1", "x2"]
        (some { id := "bob" }) storeU).1.error = none ∧
     (updatePoll pollW.id (some "x") ["x1", "x2"]
        (some { id := "bob" }) storeU).2 = storeU) :=
  ⟨by decide, by decide, by decide, by decide,
   updatePoll_nonowner_silent_noop storeU pollW { id := "bob" } "x"
     ["x1", "x2"] (by decide) (by decide) (by decide) (by decide)⟩

/-- A poll whose `endDate` (epoch 5) is in the past at `now = 10`, i.e. a
CLOSED poll in the spec's state machine. -/
def closedPoll : PollRow :=
  { id := "p1", user_id := "alice", question := "Q?", options := ["A", "B"],
    end_date := some 5, allow_multiple_votes := false,
    require_authentication := false }

/-- The store holding only `closedPoll`, with no votes. -/
def storeClosed : Store := { polls := [closedPoll], votes := [] }

/-- C3 counterexample: at `now = 10` the poll with `endDate = 5` is CLOSED,
yet `submitVote` succeeds (`error = null`) and a Vote row is added — the
code never fetches the poll, so no `Conflict("poll closed")` exists. -/
theorem submitVote_closed_poll_counterexample :
    isClosed 10 closedPoll = true ∧
    (submitVote closedPoll.id 0 (some { id := "u" }) storeClosed).1.error
      = none ∧
    (submitVote closedPoll.id 0 (some { id := "u" }) storeClosed).2.votes.length
      = storeClosed.votes.length + 1 := by decide

/-- C3 amended: part_000's `submitVote` performs no closed-poll check at all
— it never reads the poll, so for every poll id, option index, session and
store (in particular for polls whose `endDate` is in the past) it returns
success and appends exactly one Vote row; a closed poll therefore DOES gain
votes through `submitVote`. -/
theorem submitVote_ignores_poll_state (pollId : String) (optionIndex : Nat)
    (auth : Option User) (st : Store) :
    (submitVote pollId optionIndex auth st).1.error = none ∧
    (submitVote pollId optionIndex auth st).2.votes =
      st.votes ++ [{ poll_id := pollId, user_id := auth.map User.id,
                     option_index := optionIndex }] ∧
    (submitVote pollId optionIndex auth st).2.polls = st.polls :=
  ⟨rfl, rfl, rfl⟩

/-- A poll with `allowMultipleVotes = false` and
`requireAuthentication = true`, as in the duplicate-vote claim. -/
def singleVotePoll : PollRow :=
  { id := "p1", user_id := "alice", question := "Q?", options := ["A", "B"],
    end_date := none, allow_multiple_votes := false,
    require_authentication := true }

/-- The store holding only `singleVotePoll`, with no votes. -/
def storeSingle : Store := { polls := [singleVotePoll], votes := [] }

/-- C4 counterexample: on a poll with `allowMultipleVotes = false` and
`requireAuthentication = true`, user `u` votes twice; the second
`submitVote` also returns success (no `Conflict("already voted")`) and the
tally for the option is 2, not 1 — the code performs no duplicate lookup
and the `votes` schema has no uniqueness constraint on
`(poll_id, user_id)`. -/
theorem submitVote_duplicate_counterexample :
    singleVotePoll.allow_multiple_votes = false ∧
    singleVotePoll.require_authentication = true ∧
    (submitVote singleVotePoll.id 0 (some { id := "u" }) storeSingle).1.error
      = none ∧
    (submitVote singleVotePoll.id 0 (some { id := "u" })
        (submitVote singleVotePoll.id 0 (some { id := "u" })
          storeSingle).2).1.error = none ∧
    tallyCount (submitVote singleVotePoll.id 0 (some { id := "u" })
        (submitVote singleVotePoll.id 0 (some { id := "u" })
          storeSingle).2).2 singleVotePoll.id 0 = 2 := by decide

/-- C4 amended: nothing enforces at most one Vote per `(pollId, userId)`
pair — `submitVote` never looks up existing votes, so a second vote from the
same user on the same poll also succeeds and the tally of the option grows
by 2 after two votes, holding for every store, poll id, option and user. -/
theorem submitVote_no_duplicate_check (pollId : String) (idx : Nat) (u : User)
    (st : Store) :
    (submitVote pollId idx (some u) st).1.error = none ∧
    (submitVote pollId idx (some u)
        (submitVote pollId idx (some u) st).2).1.error = none ∧
    tallyCount (submitVote pollId idx (some u)
        (submitVote pollId idx (some u) st).2).2 pollId idx =
      tallyCount st pollId idx + 2 := by
  refine ⟨rfl, rfl, ?_⟩
  simp [submitVote, tallyCount, List.filter_append]

/-- A valid three-option create request for the alx-polly variant. -/
def formThree : AlxPolly.CreatePollFormData :=
  { title := "T", description := none, options := ["A", "B", "C"],
    isPublic := true, allowMultipleVotes := false,
    allowAnonymousVotes := false }

/-- The empty store of the alx-polly / New-poll variants. -/
def emptyNP : AlxPolly.NPStore := { polls := [], poll_options := [] }

/-- C5 counterexample: in the alx-polly `createPoll`, when the options
insert fails after the poll row was inserted, the function returns an error
but the store ends with ONE poll and zero options — the orphaned poll is
not deleted, contradicting "the store ends with zero polls ... the service
... compensates by deleting the orphaned poll". -/
theorem createPoll8_partial_failure_counterexample :
    (AlxPolly.createPoll formThree none "p5" true false emptyNP).1.error =
      some "Failed to create poll options" ∧
    (AlxPolly.createPoll formThree none "p5" true false emptyNP).2.polls.length
      = 1 ∧
    (AlxPolly.createPoll formThree none "p5" true false
        emptyNP).2.poll_options.length = 0 := by decide

/-- C5 amended: when the options insert fails after the poll insert
succeeded, the alx-polly `createPoll` returns an error immediately with no
compensation: the orphaned poll row (creator `mock-user-id`) stays in the
store and no option row of the request is persisted, for every valid input. -/
theorem createPoll8_partial_failure_leaves_orphan
    (form : AlxPolly.CreatePollFormData) (session : Option User)
    (newId : String) (st : AlxPolly.NPStore) (htitle : jsTrim form.title ≠ "")
    (hmin : 2 ≤ form.options.length) (hmax : form.options.length ≤ 10)
    (hvalid : 2 ≤ (form.options.filter (fun o => jsTrim o ≠ "")).length) :
    (AlxPolly.createPoll form session newId true false st).1.success = false ∧
    (AlxPolly.createPoll form session newId true false st).1.error =
      some "Failed to create poll options" ∧
    (AlxPolly.createPoll form session newId true false st).2.polls =
      st.polls ++ [{ id := newId, title := jsTrim form.title,
                     description := AlxPolly.normDescription form.description,
                     creator_id := "mock-user-id", is_public := form.isPublic,
                     allow_multiple_votes := form.allowMultipleVotes,
                     allow_anonymous_votes := form.allowAnonymousVotes }] ∧
    (AlxPolly.createPoll form session newId true false st).2.poll_options =
      st.poll_options := by
  have h2 : ¬(form.options.length < 2) := by omega
  have h3 : ¬(form.options.length > 10) := by omega
  have h4 : ¬((form.options.filter (fun o => jsTrim o ≠ "")).length < 2) := by
    omega
  simp only [AlxPolly.createPoll, if_neg htitle, if_neg h2, if_neg h3,
    if_neg h4]
  exact ⟨rfl, rfl, rfl, rfl⟩

theorem createPoll8_partial_failure_leaves_orphan_witness :
    jsTrim formThree.title ≠ "" ∧
    2 ≤ formThree.options.length ∧
    formThree.options.length ≤ 10 ∧
    2 ≤ (formThree.options.filter (fun o => jsTrim o ≠ "")).length ∧
    ((AlxPolly.createPoll formThree none "p5" true false emptyNP).1.success
        = false ∧
     (AlxPolly.createPoll formThree none "p5" true false emptyNP).1.error =
       some "Failed to create poll options" ∧
     (AlxPolly.createPoll formThree none "p5" true false emptyNP).2.polls =
       emptyNP.polls ++
         [{ id := "p5", title := jsTrim formThree.title,
            description := AlxPolly.normDescription formThree.description,
            creator_id := "mock-user-id", is_public := formThree.isPublic,
            allow_multiple_votes := formThree.allowMultipleVotes,
            allow_anonymous_votes := formThree.allowAnonymousVotes }] ∧
     (AlxPolly.createPoll formThree none "p5" true false
         emptyNP).2.poll_options = emptyNP.poll_options) :=
  ⟨by decide, by decide, by decide, by decide,
   createPoll8_partial_failure_leaves_orphan formThree none "p5" emptyNP
     (by decide) (by decide) (by decide) (by decide)⟩

/-- The empty part_000 store. -/
def emptyStore : Store := { polls := [], votes := [] }

/-- A form whose question is whitespace-only (invalid) and whose options are
valid, submitted with no session. -/
def blankQuestionForm : CreatePollForm :=
  { question := some (.str "   "), options := [.str "A", .str "B"] }

/-- C6 counterexample: with an absent acting user AND an invalid
(whitespace-only) title, part_000's `createPoll` returns the title/options
validation message, not the `Unauthorized` message — so the authentication
check is NOT the first of the short-circuiting validation steps. -/
theorem createPoll_validation_before_auth_counterexample :
    (createPoll blankQuestionForm none "p9" emptyStore).1.error =
      some "Please provide a question and at least two options." ∧
    (createPoll blankQuestionForm none "p9" emptyStore).1.error ≠
      some "You must be logged in to create a poll." := by decide

/-- C6 amended, scoped to the part_000 variant: there, for every
`createPoll` input whose acting user is absent, `createPoll` performs no
write, and when the form is otherwise valid (string question with non-empty
trim, at least 2 sanitized options) it returns the `Unauthorized` message;
but the authentication check runs AFTER the form-type, title and options
checks, so invalid inputs are answered with a validation error even when the
caller is also unauthenticated.  The New-poll variant performs no
authentication check at all: with an absent acting user and a valid form it
still writes a poll (attributed to its hard-coded user), so the no-write
guarantee does not extend to it. -/
theorem createPoll_unauthenticated_no_write (form : CreatePollForm)
    (newId : String) (st : Store) (q : String)
    (hq : form.question = some (.str q)) (hqt : jsTrim q ≠ "")
    (hopts : 2 ≤ (sanitizedOptions form.options).length) :
    createPoll form none newId st =
      ({ error := some "You must be logged in to create a poll." }, st) ∧
    (∀ form' : CreatePollForm, (createPoll form' none newId st).2 = st) ∧
    ∀ (formNP : AlxPolly.CreatePollFormData) (nid : String)
      (stNP : AlxPolly.NPStore), jsTrim formNP.title ≠ "" →
      2 ≤ (formNP.options.filter (fun o => jsTrim o ≠ "")).length →
      (NewPoll.createPoll formNP none nid true stNP).1.success = true ∧
      (NewPoll.createPoll formNP none nid true stNP).2.polls.length =
        stNP.polls.length + 1 := by
  refine ⟨?_, ?_, ?_⟩
  · have hcond : ¬(jsTrim q = "" ∨ (sanitizedOptions form.options).length < 2) := by
      push_neg
      exact ⟨hqt, hopts⟩
    simp only [createPoll, hq, if_neg hcond]
  · intro form'
    rcases hform : form'.question with _ | fv
    · simp [createPoll, hform]
    · cases fv with
      | file => simp [createPoll, hform]
      | str s =>
        simp only [createPoll, hform]
        split <;> rfl
  · intro formNP nid stNP htitle hvalid
    have h4 : ¬((formNP.options.filter
        (fun o => jsTrim o ≠ "")).length < 2) := by omega
    simp only [NewPoll.createPoll, if_neg htitle, if_neg h4,
      if_neg (by decide : ¬((!true) = true))]
    refine ⟨by trivial, ?_⟩
    simp

theorem createPoll_unauthenticated_no_write_witness :
    ({ question := some (.str "Q"), options := [.str "A", .str "B"] } :
        CreatePollForm).question = some (.str "Q") ∧
    jsTrim "Q" ≠ "" ∧
    2 ≤ (sanitizedOptions [.str "A", .str "B"]).length ∧
    jsTrim formThree.title ≠ "" ∧
    2 ≤ (formThree.options.filter (fun o => jsTrim o ≠ "")).length ∧
    (createPoll { question := some (.str "Q"), options := [.str "A", .str "B"] }
        none "p9" emptyStore =
      ({ error := some "You must be logged in to create a poll." },
       emptyStore) ∧
     (createPoll blankQuestionForm none "p9" emptyStore).2 = emptyStore ∧
     (NewPoll.createPoll formThree none "np1" true emptyNP).1.success = true ∧
     (NewPoll.createPoll formThree none "np1" true emptyNP).2.polls.length =
       emptyNP.polls.length + 1) := by
  have h := createPoll_unauthenticated_no_write
    { question := some (.str "Q"), options := [.str "A", .str "B"] }
    "p9" emptyStore "Q" rfl (by decide) (by decide)
  have h3 := h.2.2 formThree "np1" emptyNP (by decide) (by decide)
  exact ⟨rfl, by decide, by decide, by decide, by decide,
    h.1, h.2.1 blankQuestionForm, h3.1, h3.2⟩

/-- C7 counterexample: the duplicate input `["A", "A"]` is NOT rejected —
part_000's `createPoll` never deduplicates, so the poll is created (with
both duplicate option texts) and a write is performed. -/
theorem createPoll_duplicate_options_counterexample :
    (createPoll { question := some (.str "Q"), options := [.str "A", .str "A"] }
        (some { id := "u1" }) "p2" emptyStore).1.error = none ∧
    (createPoll { question := some (.str "Q"), options := [.str "A", .str "A"] }
        (some { id := "u1" }) "p2" emptyStore).2.polls.length = 1 := by decide

/-- C7 amended: for every `createPoll` input whose options, after trimming
and dropping empties (no deduplication happens), yield fewer than 2
non-empty texts, part_000's `createPoll` returns a validation error and
performs no write — `["A", "  "]` is rejected, but `["A", "A"]` passes
validation because duplicates are not collapsed. -/
theorem createPoll_too_few_options (form : CreatePollForm)
    (auth : Option User) (newId : String) (st : Store)
    (h : (sanitizedOptions form.options).length < 2) :
    (createPoll form auth newId st).1.error.isSome = true ∧
    (createPoll form auth newId st).2 = st := by
  rcases hform : form.question with _ | fv
  · simp [createPoll, hform]
  · cases fv with
    | file => simp [createPoll, hform]
    | str s =>
      simp only [createPoll, hform]
      rw [if_pos (Or.inr h)]
      exact ⟨rfl, rfl⟩

/-- A form whose options are one valid text and one whitespace-only text. -/
def shortOptionsForm : CreatePollForm :=
  { question := some (.str "Q"), options := [.str "A", .str "  "] }

theorem createPoll_too_few_options_witness :
    (sanitizedOptions shortOptionsForm.options).length < 2 ∧
    ((createPoll shortOptionsForm (some { id := "u1" }) "p2"
        emptyStore).1.error.isSome = true ∧
     (createPoll shortOptionsForm (some { id := "u1" }) "p2"
        emptyStore).2 = emptyStore) :=
  ⟨by decide,
   createPoll_too_few_options shortOptionsForm
     (some { id := "u1" }) "p2" emptyStore (by decide)⟩

/-- An eleven-option form for part_000's `createPoll`. -/
def formEleven : CreatePollForm :=
  { question := some (.str "Q"),
    options := [.str "O1", .str "O2", .str "O3", .str "O4", .str "O5",
                .str "O6", .str "O7", .str "O8", .str "O9", .str "O10",
                .str "O11"] }

/-- C8 counterexample: part_000's `createPoll` accepts eleven options — it
enforces no option ceiling, so the universal claim "for every createPoll
input with more than 10 options, createPoll returns ValidationError and
performs no write" is false on the part_000 variant (which the claim's
sources include). -/
theorem createPoll_eleven_options_counterexample :
    formEleven.options.length = 11 ∧
    (createPoll formEleven (some { id := "u1" }) "p3" emptyStore).1.error
      = none ∧
    (createPoll formEleven (some { id := "u1" }) "p3"
        emptyStore).2.polls.length = 1 := by decide

/-- C8 amended: only the alx-polly variant of `createPoll` enforces the
10-option ceiling: there, every input with a non-blank title and more than
10 options returns `ValidationError("Maximum 10 options allowed")` and
performs no write; the part_000 variant enforces no ceiling and accepts
eleven options. -/
theorem createPoll8_option_ceiling (form : AlxPolly.CreatePollFormData)
    (session : Option User) (newId : String) (pOk oOk : Bool)
    (st : AlxPolly.NPStore) (htitle : jsTrim form.title ≠ "")
    (hmax : form.options.length > 10) :
    AlxPolly.createPoll form session newId pOk oOk st =
      ({ success := false, pollId := none,
         error := some "Maximum 10 options allowed" }, st) := by
  have h2 : ¬(form.options.length < 2) := by omega
  simp only [AlxPolly.createPoll, if_neg htitle, if_neg h2, if_pos hmax]

/-- An eleven-option form for the alx-polly variant. -/
def formElevenAP : AlxPolly.CreatePollFormData :=
  { title := "T", description := none,
    options := ["O1", "O2", "O3", "O4", "O5", "O6", "O7", "O8", "O9",
                "O10", "O11"],
    isPublic := true, allowMultipleVotes := false,
    allowAnonymousVotes := false }

theorem createPoll8_option_ceiling_witness :
    jsTrim formElevenAP.title ≠ "" ∧
    formElevenAP.options.length > 10 ∧
    AlxPolly.createPoll formElevenAP none "p4" true true emptyNP =
      ({ success := false, pollId := none,
         error := some "Maximum 10 options allowed" }, emptyNP) :=
  ⟨by decide, by decide,
   createPoll8_option_ceiling formElevenAP none "p4" true true emptyNP
     (by decide) (by decide)⟩

end Claims

/-! ## Tally helper lemmas -/

theorem percentage_of_zero_count (t : Nat) : Tally.percentage 0 t = 0 := by
  unfold Tally.percentage Tally.jsRound
  split
  · exact Nat.div_eq_of_lt (by omega)
  · rfl

theorem resultsLookup_voteCounts (opts : List String) (votes : List String)
    (x : String) (hx : x ∈ opts) :
    Tally.resultsLookup (Tally.voteCounts opts votes) x =
      Tally.countVotes votes x := by
  induction opts with
  | nil => cases hx
  | cons a l ih =>
    simp only [Tally.voteCounts, List.map_cons] at *
    by_cases h : a = x
    · subst h
      simp [Tally.resultsLookup, List.find?]
    · have hx' : x ∈ l := by
        rcases List.mem_cons.mp hx with h' | h'
        · exact absurd h'.symm h
        · exact h'
      unfold Tally.resultsLookup at *
      rw [List.find?_cons_of_neg]
      · exact ih hx'
      · simp [h]

/-! ## Claim theorems for tallying and identity -/

section Claims2
open Polls

/-- C9: `getTally` enumerates every option of the poll in order: each option
is paired with the count of its votes and `round(100 * count / totalVotes)`
(0% for every option when there are no votes); for options `[A, B, C]` and
votes `[A, A, B]` the result is `{A: (2, 67), B: (1, 33), C: (0, 0)}` —
zero-vote options appear with count 0 and no division by zero occurs. -/
theorem getTally_enumerates_all_options :
    Tally.getTally ["A", "B", "C"] ["A", "A", "B"] =
      [("A", 2, 67), ("B", 1, 33), ("C", 0, 0)] ∧
    (∀ pollOptions votes : List String,
      Tally.getTally pollOptions votes =
        pollOptions.map (fun o =>
          (o, Tally.countVotes votes o,
           Tally.percentage (Tally.countVotes votes o)
             (Tally.totalOf (Tally.voteCounts pollOptions votes))))) ∧
    (∀ pollOptions votes : List String,
      (Tally.getTally pollOptions votes).map Prod.fst = pollOptions) ∧
    (∀ pollOptions : List String,
      ((Tally.getTally pollOptions []).all (fun t => t.2.2 == 0)) = true) ∧
    (∀ c : Nat, Tally.percentage c 0 = 0) := by
  have hgen : ∀ pollOptions votes : List String,
      Tally.getTally pollOptions votes =
        pollOptions.map (fun o =>
          (o, Tally.countVotes votes o,
           Tally.percentage (Tally.countVotes votes o)
             (Tally.totalOf (Tally.voteCounts pollOptions votes)))) := by
    intro opts votes
    unfold Tally.getTally Tally.resultsFor
    apply List.map_congr_left
    intro o ho
    rw [resultsLookup_voteCounts opts votes o ho]
  refine ⟨by decide, hgen, ?_, ?_, fun c => rfl⟩
  · intro opts votes
    rw [hgen, List.map_map]
    exact List.map_id opts
  · intro opts
    rw [List.all_eq_true]
    intro t ht
    rw [hgen] at ht
    rcases List.mem_map.mp ht with ⟨o, _, rfl⟩
    have hc : Tally.countVotes [] o = 0 := rfl
    simp [hc, percentage_of_zero_count]

/-- C10: neither the alx-polly nor the New-poll `createPoll` ever consults
the identity provider: both are independent of the ambient session, and a
successfully created poll's creator id is the fixed constant
`"mock-user-id"` (alx-polly) respectively `"demo-user"` (New-poll), even
when no user is authenticated. -/
theorem createPoll_variants_ignore_identity_provider :
    (∀ (form : AlxPolly.CreatePollFormData) (s1 s2 : Option User)
        (newId : String) (pOk oOk : Bool) (st : AlxPolly.NPStore),
      AlxPolly.createPoll form s1 newId pOk oOk st =
        AlxPolly.createPoll form s2 newId pOk oOk st) ∧
    (∀ (form : AlxPolly.CreatePollFormData) (s1 s2 : Option User)
        (newId : String) (rOk : Bool) (st : AlxPolly.NPStore),
      NewPoll.createPoll form s1 newId rOk st =
        NewPoll.createPoll form s2 newId rOk st) ∧
    (∀ (form : AlxPolly.CreatePollFormData) (session : Option User)
        (newId : String) (st : AlxPolly.NPStore),
      jsTrim form.title ≠ "" → 2 ≤ form.options.length →
      form.options.length ≤ 10 →
      2 ≤ (form.options.filter (fun o => jsTrim o ≠ "")).length →
      (AlxPolly.createPoll form session newId true true st).1.success = true ∧
      ((AlxPolly.createPoll form session newId true true
          st).2.polls.getLast?).map AlxPolly.PollRow.creator_id =
        some "mock-user-id") ∧
    (∀ (form : AlxPolly.CreatePollFormData) (session : Option User)
        (newId : String) (st : AlxPolly.NPStore),
      jsTrim form.title ≠ "" →
      2 ≤ (form.options.filter (fun o => jsTrim o ≠ "")).length →
      (NewPoll.createPoll form session newId true st).1.success = true ∧
      ((NewPoll.createPoll form session newId true st).2.polls.getLast?).map
        AlxPolly.PollRow.creator_id = some "demo-user") := by
  refine ⟨fun _ _ _ _ _ _ _ => rfl, fun _ _ _ _ _ _ => rfl, ?_, ?_⟩
  · intro form session newId st htitle hmin hmax hvalid
    have h2 : ¬(form.options.length < 2) := by omega
    have h3 : ¬(form.options.length > 10) := by omega
    have h4 : ¬((form.options.filter
        (fun o => jsTrim o ≠ "")).length < 2) := by omega
    simp only [AlxPolly.createPoll, if_neg htitle, if_neg h2, if_neg h3,
      if_neg h4, if_neg (by decide : ¬((!true) = true))]
    refine ⟨by trivial, ?_⟩
    rw [List.getLast?_append_cons]
    rfl
  · intro form session newId st htitle hvalid
    have h4 : ¬((form.options.filter
        (fun o => jsTrim o ≠ "")).length < 2) := by omega
    simp only [NewPoll.createPoll, if_neg htitle, if_neg h4,
      if_neg (by decide : ¬((!true) = true))]
    refine ⟨by trivial, ?_⟩
    rw [List.getLast?_append_cons]
    rfl

theorem createPoll_variants_ignore_identity_provider_witness :
    jsTrim formThree.title ≠ "" ∧
    2 ≤ formThree.options.length ∧ formThree.options.length ≤ 10 ∧
    2 ≤ (formThree.options.filter (fun o => jsTrim o ≠ "")).length ∧
    ((AlxPolly.createPoll formThree none "p6" true true emptyNP).1.success
        = true ∧
     ((AlxPolly.createPoll formThree none "p6" true true
         emptyNP).2.polls.getLast?).map AlxPolly.PollRow.creator_id =
       some "mock-user-id") ∧
    ((NewPoll.createPoll formThree (some { id := "real-user" }) "p7" true
        emptyNP).1.success = true ∧
     ((NewPoll.createPoll formThree (some { id := "real-user" }) "p7" true
         emptyNP).2.polls.getLast?).map AlxPolly.PollRow.creator_id =
       some "demo-user") :=
  ⟨by decide, by decide, by decide, by decide,
   createPoll_variants_ignore_identity_provider.2.2.1 formThree none "p6"
     emptyNP (by decide) (by decide) (by decide) (by decide),
   createPoll_variants_ignore_identity_provider.2.2.2 formThree
     (some { id := "real-user" }) "p7" emptyNP (by decide) (by decide)⟩

end Claims2
